import Mathlib

/-!
Verification of `fury/molecular.py`, a thin pythonic layer over the VTK
molecular-visualization classes (`vtkMolecule`, `vtkPeriodicTable`,
`vtkOpenGLMoleculeMapper`, `vtkProteinRibbonFilter`).

The Python file is shallowly embedded here.  VTK-native objects are
modelled as Lean records: a `vtkMolecule` is its atom list (atomic number
stored as a C `unsigned short`, position as an exact rational triple) plus
its bond list; a mapper is a record of the settings the wrapper functions
write, each an `Option` whose `none` means the wrapper never touched that
setting (the engine default stays in force).  Fallible constructors return
`Except String` — `Except.error` models a raised `ValueError`.
-/

set_option autoImplicit false

namespace Fury

/-- One atom of a `vtkMolecule`: the atomic number (a C `unsigned short`,
hence reduced mod 2^16 on storage) and the position. -/
structure MolAtom where
  atomicNumber : Nat
  pos : ℚ × ℚ × ℚ
  deriving Repr, DecidableEq

/-- One bond of a `vtkMolecule`: the two atom indices and the bond order
(a C `unsigned short`, reduced mod 2^16 on storage). -/
structure Bond where
  atom1 : Nat
  atom2 : Nat
  order : Nat
  deriving Repr, DecidableEq

/-- The structural part of a `vtkMolecule` — exactly what
`vtkMolecule::DeepCopyStructure` copies: atoms and bonds. -/
structure MolStructure where
  atoms : List MolAtom
  bonds : List Bond
  deriving Repr, DecidableEq

/-- A value passed from Python for an array-typed parameter: `None`,
a numpy ndarray carrying data, or an object of any other type. -/
inductive PyObj (α : Type) where
  | none
  | ndarray (data : α)
  | other
  deriving Repr, DecidableEq

/-- `True` iff the Python value is a numpy ndarray
(`isinstance(x, np.ndarray)`). -/
def PyObj.isNdarray {α : Type} : PyObj α → Bool
  | .ndarray _ => true
  | _ => false

/-- The `Molecule` class: the wrapped `vtkMolecule` structure plus the
python-side metadata attributes assigned by `__init__`.  A metadata field
is `Option.none` when the attribute was never assigned (or was assigned
`None`). -/
structure Molecule where
  struct : MolStructure
  atom_names : Option (List String)
  model : Option (List Nat)
  residue_seq : Option (List Int)
  chain : Option (List Int)
  sheet : Option (List (Int × Int × Int × Int))
  helix : Option (List (Int × Int × Int × Int))
  is_hetatm : Option (List Bool)
  deriving Repr, DecidableEq

/-- Error message of `Molecule.__init__` for non-ndarray inputs. -/
def msgNotArrays : String := "atom_types and coords must be numpy arrays."

/-- Error message of `Molecule.__init__` for a length mismatch. -/
def msgLenMismatch : String := "Mismatch in length of atomic_numbers and length of atomic_coords."

/-- `Molecule.__init__`.  Both inputs `None`: an empty molecule is
initialized (`self.Initialize()`), the metadata attributes are never
assigned.  Either input not an ndarray (this covers exactly one of the
two being `None`): `ValueError`.  Equal lengths: the metadata attributes
are assigned and `Initialize(points, fieldData)` fills the atoms (atomic
numbers are marshalled as `VTK_UNSIGNED_SHORT`).  Different lengths:
`ValueError`, no state initialized. -/
def Molecule.init (atomic_numbers : PyObj (List Nat))
    (coords : PyObj (List (ℚ × ℚ × ℚ)))
    (atom_names : Option (List String)) (model : Option (List Nat))
    (residue_seq : Option (List Int)) (chain : Option (List Int))
    (sheet : Option (List (Int × Int × Int × Int)))
    (helix : Option (List (Int × Int × Int × Int)))
    (is_hetatm : Option (List Bool)) : Except String Molecule :=
  match atomic_numbers, coords with
  | .none, .none =>
      .ok { struct := { atoms := [], bonds := [] }
            atom_names := Option.none, model := Option.none
            residue_seq := Option.none, chain := Option.none
            sheet := Option.none, helix := Option.none
            is_hetatm := Option.none }
  | .ndarray nums, .ndarray pts =>
      if nums.length = pts.length then
        .ok { struct :=
                { atoms := List.zipWith
                    (fun a c => { atomicNumber := a % 65536, pos := c })
                    nums pts
                  bonds := [] }
              atom_names := atom_names, model := model
              residue_seq := residue_seq, chain := chain
              sheet := sheet, helix := helix
              is_hetatm := is_hetatm }
      else
        .error msgLenMismatch
  | _, _ => .error msgNotArrays

/-- `Molecule.total_num_atoms` (`GetNumberOfAtoms`). -/
def Molecule.total_num_atoms (molecule : Molecule) : Nat :=
  molecule.struct.atoms.length

/-- `Molecule.total_num_bonds` (`GetNumberOfBonds`). -/
def Molecule.total_num_bonds (molecule : Molecule) : Nat :=
  molecule.struct.bonds.length

/-- In-place update of the element at index `i` of a list; out-of-range
indices leave the list unchanged (the VTK arrays are updated in place). -/
def updateNth {α : Type} (l : List α) (i : Nat) (f : α → α) : List α :=
  match l, i with
  | [], _ => []
  | a :: rest, 0 => f a :: rest
  | a :: rest, n + 1 => a :: updateNth rest n f

/-- `add_atom`: `molecule.AppendAtom(atomic_num, x, y, z)` appends one atom;
the atomic number is a C `unsigned short`. -/
def add_atom (molecule : Molecule) (atomic_num : Nat) (x_coord y_coord z_coord : ℚ) :
    Molecule :=
  { molecule with
      struct := { molecule.struct with
        atoms := molecule.struct.atoms ++
          [{ atomicNumber := atomic_num % 65536, pos := (x_coord, y_coord, z_coord) }] } }

/-- `add_bond`: `molecule.AppendBond(atom1_index, atom2_index, bond_order)`
appends one bond; the order is a C `unsigned short` and is stored as given,
with no further check. -/
def add_bond (molecule : Molecule) (atom1_index atom2_index : Nat) (bond_order : Nat) :
    Molecule :=
  { molecule with
      struct := { molecule.struct with
        bonds := molecule.struct.bonds ++
          [{ atom1 := atom1_index, atom2 := atom2_index, order := bond_order % 65536 }] } }

/-- `get_atomic_number`: `molecule.GetAtomAtomicNumber(atom_index)`. -/
def get_atomic_number (molecule : Molecule) (atom_index : Nat) : Nat :=
  ((molecule.struct.atoms.get? atom_index).map MolAtom.atomicNumber).getD 0

/-- `set_atomic_number`: `molecule.SetAtomAtomicNumber(atom_index, atomic_num)`. -/
def set_atomic_number (molecule : Molecule) (atom_index : Nat) (atomic_num : Nat) :
    Molecule :=
  { molecule with
      struct := { molecule.struct with
        atoms := updateNth molecule.struct.atoms atom_index
          (fun a => { a with atomicNumber := atomic_num % 65536 }) } }

/-- `get_atomic_position`: `molecule.GetAtomPosition(atom_index)`. -/
def get_atomic_position (molecule : Molecule) (atom_index : Nat) : ℚ × ℚ × ℚ :=
  ((molecule.struct.atoms.get? atom_index).map MolAtom.pos).getD (0, 0, 0)

/-- `set_atomic_position`: `molecule.SetAtomPosition(atom_index, x, y, z)`. -/
def set_atomic_position (molecule : Molecule) (atom_index : Nat) (x_coord y_coord z_coord : ℚ) :
    Molecule :=
  { molecule with
      struct := { molecule.struct with
        atoms := updateNth molecule.struct.atoms atom_index
          (fun a => { a with pos := (x_coord, y_coord, z_coord) }) } }

/-- `get_bond_order`: `molecule.GetBondOrder(bond_index)`. -/
def get_bond_order (molecule : Molecule) (bond_index : Nat) : Nat :=
  ((molecule.struct.bonds.get? bond_index).map Bond.order).getD 0

/-- `set_bond_order`: `molecule.SetBondOrder(bond_index, bond_order)`; the
order is a C `unsigned short` and is stored as given, with no check. -/
def set_bond_order (molecule : Molecule) (bond_index : Nat) (bond_order : Nat) :
    Molecule :=
  { molecule with
      struct := { molecule.struct with
        bonds := updateNth molecule.struct.bonds bond_index
          (fun b => { b with order := bond_order % 65536 }) } }

/-- `deep_copy_molecule`: `molecule1.DeepCopyStructure(molecule2)` replaces
the structural part (atoms and bonds) of `molecule1` with that of the given
`vtkMolecule`, leaving the python-side metadata attributes alone. -/
def deep_copy_molecule (molecule1 : Molecule) (molecule2 : MolStructure) : Molecule :=
  { molecule1 with struct := molecule2 }

/-- Modelled from the spec: `vtkSimpleBondPerceiver`, the external toolkit
filter `compute_bonding` delegates to.  Its code is not part of this
repository; all the embedding needs is that it maps a tolerance and an
input molecule structure to an output structure, and (per the spec and the
function's own docstring) that the output "will not produce anything other
than single bonds". -/
structure BondPerceiver where
  perceive : ℚ → MolStructure → MolStructure
  single_only : ∀ (t : ℚ) (m : MolStructure) (b : Bond),
    b ∈ (perceive t m).bonds → b.order = 1

/-- `compute_bonding`: feeds the molecule to the bond perceiver with
tolerance `0.1`, then deep copies the perceiver's output back into the
molecule. -/
def compute_bonding (bonder : BondPerceiver) (molecule : Molecule) : Molecule :=
  deep_copy_molecule molecule (bonder.perceive (1 / 10) molecule.struct)

/-- Modelled from the spec: the data tables behind `vtkPeriodicTable`
(Blue Obelisk Data Repository), which are external to this repository.
Only the lookup functions matter to the wrapper. -/
structure PeriodicTable where
  vdwRadius : Nat → ℚ
  covalentRadius : Nat → ℚ
  rgbTuple : Nat → ℚ × ℚ × ℚ

/-- Python's `str.lower` for the ASCII option strings this module
compares: lower-case each character. -/
def pyLower (s : String) : String := ⟨s.data.map Char.toLower⟩

/-- Error message of `PeriodicTable.atomic_radius` for a bad radius type. -/
def msgBadRadiusType : String := "Incorrect radius_type specified."

/-- The string literal the `vdw` branch compares against. -/
def vdwKey : String := "vdw"

/-- The string literal the `covalent` branch compares against. -/
def covalentKey : String := "covalent"

/-- The default value of the `radius_type` parameter of
`PeriodicTable.atomic_radius`. -/
def radiusTypeDefault : String := "VDW"

/-- `PeriodicTable.atomic_radius`: lower-cases `radius_type`, then
dispatches to `GetVDWRadius`, `GetCovalentRadius`, or raises. -/
def PeriodicTable.atomic_radius (table : PeriodicTable) (atomic_number : Nat)
    (radius_type : String) : Except String ℚ :=
  let radius_type := pyLower radius_type
  if radius_type = vdwKey then
    .ok (table.vdwRadius atomic_number)
  else if radius_type = covalentKey then
    .ok (table.covalentRadius atomic_number)
  else
    .error msgBadRadiusType

/-- `PeriodicTable.atomic_radius` with `radius_type` left at its default. -/
def PeriodicTable.atomic_radius_default (table : PeriodicTable) (atomic_number : Nat) :
    Except String ℚ :=
  table.atomic_radius atomic_number radiusTypeDefault

/-- `PeriodicTable.atom_color`: `GetDefaultRGBTuple`. -/
def PeriodicTable.atom_color (table : PeriodicTable) (atomic_number : Nat) : ℚ × ℚ × ℚ :=
  table.rgbTuple atomic_number

/-- The settings of a `vtkOpenGLMoleculeMapper` that the actor builders
write.  A field is `none` when the builder never calls the corresponding
setter, so the engine's own default stays in force. -/
structure MoleculeMapper where
  inputData : Option Molecule
  renderAtoms : Option Bool
  renderBonds : Option Bool
  bondRadius : Option ℚ
  radiusTypeVDW : Option Bool
  atomicRadiusScaleFactor : Option ℚ
  atomColorMode : Option Nat
  bondColorMode : Option Nat
  useMultiCylindersForBonds : Option Nat
  deriving Repr, DecidableEq

/-- A freshly constructed mapper: no setter called yet. -/
def MoleculeMapper.fresh : MoleculeMapper :=
  { inputData := none
    renderAtoms := none, renderBonds := none, bondRadius := none
    radiusTypeVDW := none, atomicRadiusScaleFactor := none
    atomColorMode := none, bondColorMode := none
    useMultiCylindersForBonds := none }

/-- The string literal the `discrete` branches compare against. -/
def discreteKey : String := "discrete"

/-- The string literal the `single` branches compare against. -/
def singleKey : String := "single"

/-- The string literal the `multiple_bonds` `on` branch compares against. -/
def onKey : String := "on"

/-- The string literal the `multiple_bonds` `off` branch compares against. -/
def offKey : String := "off"

/-- Warning text for an unrecognised colormode. -/
def warnColormode : String := "Incorrect colormode specified! Using discrete."

/-- Warning text for an unrecognised multiple_bonds choice. -/
def warnMultipleBonds : String := "Incorrect choice for multiple_bonds! Setting it to on."

/-- Error message of `ball_stick` when the molecule has no bonds. -/
def msgNoBondsBallStick : String := "No bonding data available for the molecule! Ball and stick model cannot be made!"

/-- Error message of `stick` when the molecule has no bonds. -/
def msgNoBondsStick : String := "No bonding data available for the molecule! Stick model cannot be made!"

/-- `sphere_cpk`: builds the space-filling mapper.  Returns the mapper the
actor is given, paired with the warnings issued. -/
def sphere_cpk (molecule : Molecule) (colormode : String) :
    MoleculeMapper × List String :=
  let colormode := pyLower colormode
  let m := { MoleculeMapper.fresh with
               inputData := some molecule
               renderAtoms := some true, renderBonds := some false
               radiusTypeVDW := some true, atomicRadiusScaleFactor := some 1 }
  if colormode = discreteKey then
    ({ m with atomColorMode := some 1 }, [])
  else if colormode = singleKey then
    ({ m with atomColorMode := some 0 }, [])
  else
    ({ m with atomColorMode := some 1 }, [warnColormode])

/-- `ball_stick`: raises when the molecule has no bonds, otherwise builds
the ball-and-stick mapper.  Returns the mapper the actor is given, paired
with the warnings issued.  Note the order of the source: the
`multiple_bonds` dispatch runs before the colormode dispatch, and the
colormode fallback sets only the atom color mode. -/
def ball_stick (molecule : Molecule) (colormode : String)
    (atom_scale_factor bond_thickness : ℚ) (multiple_bonds : String) :
    Except String (MoleculeMapper × List String) :=
  if molecule.total_num_bonds = 0 then
    .error msgNoBondsBallStick
  else
    let colormode := pyLower colormode
    let multiple_bonds := pyLower multiple_bonds
    let m := { MoleculeMapper.fresh with
                 inputData := some molecule
                 renderAtoms := some true, renderBonds := some true
                 bondRadius := some bond_thickness
                 radiusTypeVDW := some true
                 atomicRadiusScaleFactor := some atom_scale_factor }
    let step1 :=
      if multiple_bonds = onKey then
        ({ m with useMultiCylindersForBonds := some 1 }, ([] : List String))
      else if multiple_bonds = offKey then
        ({ m with useMultiCylindersForBonds := some 0 }, [])
      else
        ({ m with useMultiCylindersForBonds := some 1 }, [warnMultipleBonds])
    if colormode = discreteKey then
      .ok ({ step1.1 with atomColorMode := some 1, bondColorMode := some 1 }, step1.2)
    else if colormode = singleKey then
      .ok ({ step1.1 with atomColorMode := some 0, bondColorMode := some 0 }, step1.2)
    else
      .ok ({ step1.1 with atomColorMode := some 1 }, step1.2 ++ [warnColormode])

/-- `stick`: raises when the molecule has no bonds, otherwise builds the
stick mapper.  The colormode fallback sets only the atom color mode. -/
def stick (molecule : Molecule) (colormode : String) (bond_thickness : ℚ) :
    Except String (MoleculeMapper × List String) :=
  if molecule.total_num_bonds = 0 then
    .error msgNoBondsStick
  else
    let colormode := pyLower colormode
    let m := { MoleculeMapper.fresh with
                 inputData := some molecule
                 renderAtoms := some true, renderBonds := some true
                 bondRadius := some bond_thickness
                 radiusTypeVDW := some false
                 atomicRadiusScaleFactor := some bond_thickness }
    if colormode = discreteKey then
      .ok ({ m with atomColorMode := some 1, bondColorMode := some 1 }, [])
    else if colormode = singleKey then
      .ok ({ m with atomColorMode := some 0, bondColorMode := some 0 }, [])
    else
      .ok ({ m with atomColorMode := some 1 }, [warnColormode])

/-- Whether one sheet/helix record of `molecule.sheet` / `molecule.helix`
applies to an atom, as tested in the `ribbon` loops: the inner `continue`
fires when `chain[i] != r[0] or resi < r[1] or resi > r[3]`, so the record
applies exactly when `chain[i] == r[0] and r[1] <= resi <= r[3]`. -/
def ssMatch (chain_i resi : Int) (r : Int × Int × Int × Int) : Bool :=
  chain_i == r.1 && r.2.1 ≤ resi && resi ≤ r.2.2.2

/-- The per-atom secondary-structure loop body of `ribbon`: start from
`ord('c')` (99), overwrite with `ord('s')` (115) for each applying sheet
record, then overwrite with `ord('h')` (104) for each applying helix
record. -/
def ssClassify (chain_i resi : Int)
    (sheets helices : List (Int × Int × Int × Int)) : Nat :=
  let afterSheets := sheets.foldl
    (fun acc r => if ssMatch chain_i resi r then 115 else acc) 99
  helices.foldl
    (fun acc r => if ssMatch chain_i resi r then 104 else acc) afterSheets

/-- The `secondary_structures` array built by `ribbon`, one entry per atom
index. -/
def secondaryStructures (chain residue_seq : List Int)
    (sheets helices : List (Int × Int × Int × Int)) (n : Nat) : List Nat :=
  (List.range n).map
    (fun i => ssClassify (chain.getD i 0) (residue_seq.getD i 0) sheets helices)

/-- The named point-data arrays of the `vtkPolyData` that `ribbon` hands to
`vtkProteinRibbonFilter`, keyed by the `SetName` strings used in the
source.  Values are kept as the Python-side numbers; the `numpy_to_vtk`
casts preserve them for the in-range data the filter expects. -/
structure RibbonPolyData where
  atom_type : List Nat
  atom_types : List String
  residue : List Int
  chain : List Int
  secondary_structures : List Nat
  secondary_structures_begin : List Nat
  secondary_structures_end : List Nat
  ishetatm : List Bool
  model : List Nat
  rgb_colors : List (ℚ × ℚ × ℚ)
  radius : List (ℚ × ℚ × ℚ)
  points : List (ℚ × ℚ × ℚ)
  deriving Repr, DecidableEq

/-- `ribbon`, up to the hand-off to `vtkProteinRibbonFilter`: assembles the
point-data arrays from the molecule.  `none` when a metadata attribute the
function reads was never assigned (the Python code would fail on the
attribute access / iteration).  The `radius` array is filled through
`PeriodicTable.atomic_radius` with the literal `'VDW'` argument, the
`rgb_colors` array through `PeriodicTable.atom_color`. -/
def ribbonPolyData (table : PeriodicTable) (molecule : Molecule) :
    Option RibbonPolyData := do
  let residue_seq ← molecule.residue_seq
  let chain ← molecule.chain
  let sheets ← molecule.sheet
  let helices ← molecule.helix
  let atom_names ← molecule.atom_names
  let is_hetatm ← molecule.is_hetatm
  let model ← molecule.model
  let coords := molecule.struct.atoms.map MolAtom.pos
  let all_atomic_numbers := molecule.struct.atoms.map MolAtom.atomicNumber
  let n := molecule.total_num_atoms
  pure
    { atom_type := all_atomic_numbers
      atom_types := (List.range n).map (fun i => atom_names.getD i (""))
      residue := residue_seq
      chain := chain
      secondary_structures := secondaryStructures chain residue_seq sheets helices n
      secondary_structures_begin := List.replicate n 1
      secondary_structures_end := List.replicate n 1
      ishetatm := is_hetatm
      model := model
      rgb_colors := all_atomic_numbers.map (fun a => table.atom_color a)
      radius := all_atomic_numbers.map
        (fun a =>
          match table.atomic_radius a radiusTypeDefault with
          | .ok r => (r, r, r)
          | .error _ => (0, 0, 0))
      points := coords }

/-- One bond-mutating call of the public interface: `add_bond` or
`set_bond_order`, with the arguments passed to it. -/
inductive BondOp where
  | add (atom1_index atom2_index bond_order : Nat)
  | setOrder (bond_index bond_order : Nat)
  deriving Repr, DecidableEq

/-- The `bond_order` argument passed in the call. -/
def BondOp.requested : BondOp → Nat
  | .add _ _ o => o
  | .setOrder _ o => o

/-- Run one bond-mutating call on a molecule. -/
def applyBondOp (molecule : Molecule) : BondOp → Molecule
  | .add i j o => add_bond molecule i j o
  | .setOrder i o => set_bond_order molecule i o

/-- Run a sequence of bond-mutating calls, oldest first. -/
def applyBondOps (molecule : Molecule) (ops : List BondOp) : Molecule :=
  ops.foldl applyBondOp molecule

/-- A molecule as produced by `Molecule()` with no arguments. -/
def emptyMolecule : Molecule :=
  { struct := { atoms := [], bonds := [] }
    atom_names := none, model := none, residue_seq := none, chain := none
    sheet := none, helix := none, is_hetatm := none }

/-- A two-atom molecule carrying one single bond. -/
def molWithBond : Molecule :=
  { struct :=
      { atoms := [ { atomicNumber := 1, pos := (0, 0, 0) }
                 , { atomicNumber := 1, pos := (1, 0, 0) } ]
        bonds := [ { atom1 := 0, atom2 := 1, order := 1 } ] }
    atom_names := none, model := none, residue_seq := none, chain := none
    sheet := none, helix := none, is_hetatm := none }

/-- The chain array of the concrete protein-like molecule below. -/
def chainP : List Int := [1, 1]

/-- The residue-sequence array of the concrete protein-like molecule. -/
def residueP : List Int := [1, 2]

/-- The sheet records of the concrete protein-like molecule: one sheet on
chain 1 covering residues 1..1. -/
def sheetsP : List (Int × Int × Int × Int) := [(1, 1, 0, 1)]

/-- The helix records of the concrete protein-like molecule: one helix on
chain 1 covering residues 2..2. -/
def helicesP : List (Int × Int × Int × Int) := [(1, 2, 0, 2)]

/-- A two-atom molecule with full secondary-structure metadata: atom 0 sits
in the sheet, atom 1 in the helix. -/
def molProtein : Molecule :=
  { struct :=
      { atoms := [ { atomicNumber := 6, pos := (0, 0, 0) }
                 , { atomicNumber := 7, pos := (1, 0, 0) } ]
        bonds := [] }
    atom_names := some ["CA", "CB"]
    model := some [1, 1]
    residue_seq := some residueP
    chain := some chainP
    sheet := some sheetsP
    helix := some helicesP
    is_hetatm := some [false, false] }

/-- A concrete periodic table instance for evaluating the lookups. -/
def tableConst : PeriodicTable :=
  { vdwRadius := fun _ => 3 / 2
    covalentRadius := fun _ => 3 / 4
    rgbTuple := fun _ => (1, 0, 0) }

/-- A mixed-case spelling of the `VDW` radius type. -/
def mixedVdw : String := "vDw"

/-- A mixed-case spelling of the `Covalent` radius type. -/
def mixedCovalent : String := "CovaLENT"

/-- A string that is neither `VDW` nor `Covalent` in any casing. -/
def badRadiusType : String := "angstrom"

/-- A mixed-case spelling of the `discrete` colormode. -/
def mixedDiscrete : String := "DiScReTe"

/-- A mixed-case spelling of the `on` choice for `multiple_bonds`. -/
def mixedOn : String := "ON"

/-- A colormode string that is neither `discrete` nor `single`. -/
def badColormode : String := "grand"

/-- A concrete bond perceiver for evaluation: whatever the input, it keeps
the atoms and emits one single bond. -/
def trivialBonder : BondPerceiver :=
  { perceive := fun _ m =>
      { atoms := m.atoms, bonds := [{ atom1 := 0, atom2 := 1, order := 1 }] }
    single_only := by
      intro t m b hb
      rw [List.mem_singleton.mp hb] }

/-! ## Helper lemmas -/

theorem mem_updateNth {α : Type} (f : α → α) (b : α) :
    ∀ (l : List α) (i : Nat), b ∈ updateNth l i f → b ∈ l ∨ ∃ a ∈ l, b = f a := by
  intro l
  induction l with
  | nil => intro i h; simp [updateNth] at h
  | cons x xs ih =>
    intro i h
    cases i with
    | zero =>
      rcases List.mem_cons.mp h with h | h
      · exact Or.inr ⟨x, List.mem_cons_self x xs, h⟩
      · exact Or.inl (List.mem_cons_of_mem x h)
    | succ n =>
      rcases List.mem_cons.mp h with h | h
      · exact Or.inl (h ▸ List.mem_cons_self x xs)
      · rcases ih n h with h' | ⟨a, ha, hfa⟩
        · exact Or.inl (List.mem_cons_of_mem x h')
        · exact Or.inr ⟨a, List.mem_cons_of_mem x ha, hfa⟩

theorem updateNth_getElem? {α : Type} (f : α → α) :
    ∀ (l : List α) (i : Nat), (updateNth l i f)[i]? = (l[i]?).map f := by
  intro l
  induction l with
  | nil => intro i; simp [updateNth]
  | cons x xs ih =>
    intro i
    cases i with
    | zero => simp [updateNth]
    | succ n => simpa [updateNth] using ih n

/-! ## Claim theorems -/

/-- C1: for numpy-array inputs, the `Molecule` constructor succeeds — with
the atoms taken from the two arrays and the metadata attributes stored —
exactly when the two arrays have equal length, and raises the
length-mismatch `ValueError` (initializing nothing) exactly when they do
not. -/
theorem init_arrays_succeeds_iff_equal_lengths
    (nums : List Nat) (pts : List (ℚ × ℚ × ℚ))
    (an : Option (List String)) (md : Option (List Nat))
    (rs : Option (List Int)) (ch : Option (List Int))
    (sh : Option (List (Int × Int × Int × Int)))
    (hx : Option (List (Int × Int × Int × Int)))
    (ih : Option (List Bool)) :
    ((∃ m, Molecule.init (PyObj.ndarray nums) (PyObj.ndarray pts) an md rs ch sh hx ih
          = .ok m
        ∧ m.struct.atoms
            = List.zipWith (fun a c => { atomicNumber := a % 65536, pos := c }) nums pts
        ∧ m.struct.bonds = []
        ∧ m.atom_names = an ∧ m.model = md ∧ m.residue_seq = rs ∧ m.chain = ch
        ∧ m.sheet = sh ∧ m.helix = hx ∧ m.is_hetatm = ih)
      ↔ nums.length = pts.length)
    ∧ (Molecule.init (PyObj.ndarray nums) (PyObj.ndarray pts) an md rs ch sh hx ih
          = .error msgLenMismatch
      ↔ nums.length ≠ pts.length) := by
  by_cases h : nums.length = pts.length <;> simp [Molecule.init, h]

/-- C9: the constructor with both inputs `None` initializes an empty
molecule (no atoms, no bonds, no metadata attributes assigned); with the
two inputs not both `None` and at least one of them not an ndarray —
which covers exactly one of the two being `None` — it raises the
not-an-array `ValueError`. -/
theorem init_none_empty_and_nonarray_error
    (an : Option (List String)) (md : Option (List Nat))
    (rs : Option (List Int)) (ch : Option (List Int))
    (sh : Option (List (Int × Int × Int × Int)))
    (hx : Option (List (Int × Int × Int × Int)))
    (ih : Option (List Bool))
    (a : PyObj (List Nat)) (c : PyObj (List (ℚ × ℚ × ℚ)))
    (hnn : ¬(a = PyObj.none ∧ c = PyObj.none))
    (hnd : a.isNdarray = false ∨ c.isNdarray = false) :
    Molecule.init PyObj.none PyObj.none an md rs ch sh hx ih = .ok emptyMolecule
    ∧ emptyMolecule.total_num_atoms = 0
    ∧ emptyMolecule.total_num_bonds = 0
    ∧ Molecule.init a c an md rs ch sh hx ih = .error msgNotArrays := by
  refine ⟨rfl, rfl, rfl, ?_⟩
  cases a <;> cases c <;> simp_all [Molecule.init, PyObj.isNdarray]

/-- C9 witness: instantiated with `atomic_numbers` an ndarray and `coords`
`None` (exactly one of the two is `None`). -/
theorem init_none_empty_and_nonarray_error_witness :
    Molecule.init PyObj.none PyObj.none none none none none none none none
        = .ok emptyMolecule
    ∧ emptyMolecule.total_num_atoms = 0
    ∧ emptyMolecule.total_num_bonds = 0
    ∧ Molecule.init (PyObj.ndarray [1]) PyObj.none none none none none none none none
        = .error msgNotArrays :=
  init_none_empty_and_nonarray_error none none none none none none none
    (PyObj.ndarray [1]) PyObj.none (by simp) (Or.inr rfl)

/-- C2 counterexample: `add_bond` with `bond_order = 4` stores a bond of
order 4, outside `{1, 2, 3}` — the code enforces no bound on bond
orders. -/
theorem add_bond_order_unbounded_counterexample :
    get_bond_order (applyBondOps emptyMolecule [BondOp.add 0 1 4]) 0 = 4
    ∧ ¬(get_bond_order (applyBondOps emptyMolecule [BondOp.add 0 1 4]) 0 = 1
        ∨ get_bond_order (applyBondOps emptyMolecule [BondOp.add 0 1 4]) 0 = 2
        ∨ get_bond_order (applyBondOps emptyMolecule [BondOp.add 0 1 4]) 0 = 3) := by
  decide

theorem applyBondOp_order_mem (m : Molecule) (op : BondOp) (b : Bond)
    (hb : b ∈ (applyBondOp m op).struct.bonds) :
    b.order ∈ m.struct.bonds.map Bond.order ∨ b.order = op.requested % 65536 := by
  cases op with
  | add i j o =>
    simp only [applyBondOp, add_bond] at hb
    rcases List.mem_append.mp hb with hb | hb
    · exact Or.inl (List.mem_map_of_mem _ hb)
    · rcases List.mem_singleton.mp hb with rfl
      exact Or.inr rfl
  | setOrder i o =>
    simp only [applyBondOp, set_bond_order] at hb
    rcases mem_updateNth _ _ _ _ hb with h | ⟨a, _, hfa⟩
    · exact Or.inl (List.mem_map_of_mem _ h)
    · exact Or.inr (by simp [hfa, BondOp.requested])

theorem applyBondOps_order_mem (ops : List BondOp) (m : Molecule) (b : Bond)
    (hb : b ∈ (applyBondOps m ops).struct.bonds) :
    b.order ∈ m.struct.bonds.map Bond.order
      ∨ b.order ∈ ops.map (fun op => op.requested % 65536) := by
  induction ops generalizing m with
  | nil => exact Or.inl (List.mem_map_of_mem _ hb)
  | cons op rest ihr =>
    rcases ihr (applyBondOp m op) hb with h | h
    · rcases List.mem_map.mp h with ⟨b', hb', hord⟩
      rcases applyBondOp_order_mem m op b' hb' with h2 | h2
      · exact Or.inl (hord ▸ h2)
      · refine Or.inr ?_
        simp only [List.map_cons, List.mem_cons]
        exact Or.inl (hord ▸ h2)
    · refine Or.inr ?_
      simp only [List.map_cons, List.mem_cons]
      exact Or.inr h

/-- C2 (amended): the code enforces no bound on bond orders.  What does
hold: starting from a molecule with no bonds, after any sequence of
`add_bond` and `set_bond_order` calls, every bond's order is exactly the
`bond_order` argument of one of the calls, reduced mod 2^16 (the VTK
storage width) — it lies in `{1, 2, 3}` only if the callers keep it
there. -/
theorem bond_orders_equal_requested (m : Molecule) (ops : List BondOp)
    (h0 : m.struct.bonds = []) (b : Bond)
    (hb : b ∈ (applyBondOps m ops).struct.bonds) :
    b.order ∈ ops.map (fun op => op.requested % 65536) := by
  rcases applyBondOps_order_mem ops m b hb with h | h
  · rw [h0] at h; simp at h
  · exact h

/-- C2 witness: one `add_bond` call with order 2 on the empty molecule. -/
theorem bond_orders_equal_requested_witness :
    ({ atom1 := 0, atom2 := 1, order := 2 } : Bond).order
      ∈ [BondOp.add 0 1 2].map (fun op => op.requested % 65536) :=
  bond_orders_equal_requested emptyMolecule [BondOp.add 0 1 2] rfl _ (by decide)

/-- C7: for a valid atom index and an atomic number within the unsigned
short range VTK stores, `get_atomic_number` after `set_atomic_number`
returns the number set, and `get_atomic_position` after
`set_atomic_position` returns the coordinates set. -/
theorem setter_getter_roundtrip (mol : Molecule) (i n : Nat) (x y z : ℚ)
    (hi : i < mol.total_num_atoms) (hn : n < 65536) :
    get_atomic_number (set_atomic_number mol i n) i = n
    ∧ get_atomic_position (set_atomic_position mol i x y z) i = (x, y, z) := by
  have ha : mol.struct.atoms[i]? = some (mol.struct.atoms.get ⟨i, hi⟩) :=
    List.getElem?_eq_getElem hi
  constructor
  · simp [get_atomic_number, set_atomic_number, updateNth_getElem?, ha,
      Nat.mod_eq_of_lt hn]
  · simp [get_atomic_position, set_atomic_position, updateNth_getElem?, ha]

/-- C7 witness: set atom 0 of a two-atom molecule to oxygen at (1,2,3). -/
theorem setter_getter_roundtrip_witness :
    get_atomic_number (set_atomic_number molWithBond 0 8) 0 = 8
    ∧ get_atomic_position (set_atomic_position molWithBond 0 1 2 3) 0 = (1, 2, 3) :=
  setter_getter_roundtrip molWithBond 0 8 1 2 3 (by decide) (by decide)

/-- C4: `atomic_radius` returns the Van Der Waals radius when
`radius_type` lower-cases to `vdw`, the covalent radius when it
lower-cases to `covalent`, raises `ValueError` on every other string, and
defaults to `VDW`. -/
theorem atomic_radius_dispatch (table : PeriodicTable) (n : Nat)
    (radius_type : String) :
    (pyLower radius_type = vdwKey →
      table.atomic_radius n radius_type = .ok (table.vdwRadius n))
    ∧ (pyLower radius_type = covalentKey →
      table.atomic_radius n radius_type = .ok (table.covalentRadius n))
    ∧ (pyLower radius_type ≠ vdwKey → pyLower radius_type ≠ covalentKey →
      table.atomic_radius n radius_type = .error msgBadRadiusType)
    ∧ table.atomic_radius_default n = table.atomic_radius n radiusTypeDefault
    ∧ table.atomic_radius_default n = .ok (table.vdwRadius n) := by
  have hdef : pyLower radiusTypeDefault = vdwKey := by decide
  refine ⟨?_, ?_, ?_, rfl, ?_⟩
  · intro h
    simp [PeriodicTable.atomic_radius, h]
  · intro h
    have hck : covalentKey ≠ vdwKey := by decide
    simp [PeriodicTable.atomic_radius, h, hck]
  · intro h1 h2
    simp [PeriodicTable.atomic_radius, h1, h2]
  · simp [PeriodicTable.atomic_radius_default, PeriodicTable.atomic_radius, hdef]

/-- C4 witness: a concrete table, queried with mixed-case `vDw` and
`CovaLENT` and with the invalid string `angstrom`. -/
theorem atomic_radius_dispatch_witness :
    tableConst.atomic_radius 6 mixedVdw = .ok (tableConst.vdwRadius 6)
    ∧ tableConst.atomic_radius 6 mixedCovalent = .ok (tableConst.covalentRadius 6)
    ∧ tableConst.atomic_radius 6 badRadiusType = .error msgBadRadiusType :=
  ⟨(atomic_radius_dispatch tableConst 6 mixedVdw).1 (by decide),
   (atomic_radius_dispatch tableConst 6 mixedCovalent).2.1 (by decide),
   (atomic_radius_dispatch tableConst 6 badRadiusType).2.2.1 (by decide) (by decide)⟩

/-- C6: `compute_bonding` computes nothing itself — the molecule's
structure after the call is exactly the bond perceiver's output on the
molecule at tolerance `0.1` (deep-copied in place, metadata untouched),
and by the perceiver's contract it contains only single bonds. -/
theorem compute_bonding_delegates (bonder : BondPerceiver) (mol : Molecule) :
    (compute_bonding bonder mol).struct = bonder.perceive (1 / 10) mol.struct
    ∧ (∀ b ∈ (compute_bonding bonder mol).struct.bonds, b.order = 1)
    ∧ (compute_bonding bonder mol).atom_names = mol.atom_names
    ∧ (compute_bonding bonder mol).residue_seq = mol.residue_seq
    ∧ (compute_bonding bonder mol).chain = mol.chain
    ∧ (compute_bonding bonder mol).sheet = mol.sheet
    ∧ (compute_bonding bonder mol).helix = mol.helix
    ∧ (compute_bonding bonder mol).is_hetatm = mol.is_hetatm := by
  refine ⟨rfl, ?_, rfl, rfl, rfl, rfl, rfl, rfl⟩
  intro b hb
  exact bonder.single_only (1 / 10) mol.struct b hb

/-- C6 witness: the concrete perceiver applied to the empty molecule. -/
theorem compute_bonding_delegates_witness :
    (compute_bonding trivialBonder emptyMolecule).struct
        = trivialBonder.perceive (1 / 10) emptyMolecule.struct
    ∧ ({ atom1 := 0, atom2 := 1, order := 1 } : Bond).order = 1 :=
  ⟨(compute_bonding_delegates trivialBonder emptyMolecule).1,
   (compute_bonding_delegates trivialBonder emptyMolecule).2.1 _ (by decide)⟩

/-- C8: `ball_stick` and `stick` raise the no-bonding-data `ValueError`
exactly when the molecule has zero bonds, and return an actor exactly when
it has at least one; the molecule itself is never modified (both are pure
readers of it). -/
theorem builders_error_iff_no_bonds (mol : Molecule) (cm mb : String)
    (asf bt bt2 : ℚ) :
    ((ball_stick mol cm asf bt mb = .error msgNoBondsBallStick)
      ↔ mol.total_num_bonds = 0)
    ∧ ((∃ r, ball_stick mol cm asf bt mb = .ok r) ↔ mol.total_num_bonds ≠ 0)
    ∧ ((stick mol cm bt2 = .error msgNoBondsStick) ↔ mol.total_num_bonds = 0)
    ∧ ((∃ r, stick mol cm bt2 = .ok r) ↔ mol.total_num_bonds ≠ 0) := by
  by_cases h : mol.total_num_bonds = 0
  · refine ⟨by simp [ball_stick, h], by simp [ball_stick, h], by simp [stick, h],
      by simp [stick, h]⟩
  · refine ⟨?_, ?_, ?_, ?_⟩
    · simp only [ball_stick, if_neg h]
      constructor
      · intro hc
        split_ifs at hc
      · intro hc; exact absurd hc h
    · simp only [ball_stick, if_neg h]
      constructor
      · intro _; exact h
      · intro _
        split_ifs <;> exact ⟨_, rfl⟩
    · simp only [stick, if_neg h]
      constructor
      · intro hc
        split_ifs at hc
      · intro hc; exact absurd hc h
    · simp only [stick, if_neg h]
      constructor
      · intro _; exact h
      · intro _
        split_ifs <;> exact ⟨_, rfl⟩

/-- C5 counterexample: with an unrecognised colormode, `ball_stick`'s
fallback sets only the atom color mode to 1 — the bond color mode, which
the `discrete` branch does set to 1, is left untouched (engine default),
so the fallback is not the `discrete` behavior the claim states. -/
theorem ball_stick_fallback_counterexample :
    (ball_stick molWithBond badColormode 1 1 onKey).map
        (fun r => (r.1.atomColorMode, r.1.bondColorMode))
      = .ok (some 1, none)
    ∧ (ball_stick molWithBond discreteKey 1 1 onKey).map
        (fun r => (r.1.atomColorMode, r.1.bondColorMode))
      = .ok (some 1, some 1) := by
  constructor <;> rfl

/-- C5 (amended): the builders lower-case the option strings and dispatch:
`discrete` sets atom (and, for the bond-rendering builders, bond) color
mode 1 with no warning; `single` sets them to 0; any other string sets
only the atom color mode to 1 and issues a warning, leaving the bond color
mode at the mapper's engine default; in `ball_stick`, `multiple_bonds`
`on`/`off` enables/disables multi-cylinder bonds and any other string
enables them with a warning. -/
theorem actor_colormode_dispatch (mol : Molecule) (cm mb : String)
    (asf bt bt2 : ℚ) :
    (pyLower cm = discreteKey →
      (sphere_cpk mol cm).1.atomColorMode = some 1 ∧ (sphere_cpk mol cm).2 = [])
    ∧ (pyLower cm = singleKey →
      (sphere_cpk mol cm).1.atomColorMode = some 0 ∧ (sphere_cpk mol cm).2 = [])
    ∧ (pyLower cm ≠ discreteKey → pyLower cm ≠ singleKey →
      (sphere_cpk mol cm).1.atomColorMode = some 1
        ∧ (sphere_cpk mol cm).2 = [warnColormode])
    ∧ (∀ res, ball_stick mol cm asf bt mb = .ok res →
        (pyLower cm = discreteKey →
          res.1.atomColorMode = some 1 ∧ res.1.bondColorMode = some 1
            ∧ warnColormode ∉ res.2)
        ∧ (pyLower cm = singleKey →
          res.1.atomColorMode = some 0 ∧ res.1.bondColorMode = some 0
            ∧ warnColormode ∉ res.2)
        ∧ (pyLower cm ≠ discreteKey → pyLower cm ≠ singleKey →
          res.1.atomColorMode = some 1 ∧ res.1.bondColorMode = none
            ∧ warnColormode ∈ res.2)
        ∧ (pyLower mb = onKey →
          res.1.useMultiCylindersForBonds = some 1 ∧ warnMultipleBonds ∉ res.2)
        ∧ (pyLower mb = offKey →
          res.1.useMultiCylindersForBonds = some 0 ∧ warnMultipleBonds ∉ res.2)
        ∧ (pyLower mb ≠ onKey → pyLower mb ≠ offKey →
          res.1.useMultiCylindersForBonds = some 1 ∧ warnMultipleBonds ∈ res.2))
    ∧ (∀ res, stick mol cm bt2 = .ok res →
        (pyLower cm = discreteKey →
          res.1.atomColorMode = some 1 ∧ res.1.bondColorMode = some 1
            ∧ res.2 = [])
        ∧ (pyLower cm = singleKey →
          res.1.atomColorMode = some 0 ∧ res.1.bondColorMode = some 0
            ∧ res.2 = [])
        ∧ (pyLower cm ≠ discreteKey → pyLower cm ≠ singleKey →
          res.1.atomColorMode = some 1 ∧ res.1.bondColorMode = none
            ∧ res.2 = [warnColormode])) := by
  by_cases h0 : mol.total_num_bonds = 0 <;>
  by_cases hd : pyLower cm = discreteKey <;>
  by_cases hs : pyLower cm = singleKey <;>
  by_cases hon : pyLower mb = onKey <;>
  by_cases hoff : pyLower mb = offKey <;>
  simp +decide [sphere_cpk, ball_stick, stick, h0, hd, hs, hon, hoff,
    warnColormode, warnMultipleBonds]

/-- C5 witness: mixed-case `DiScReTe` and `ON` on a one-bond molecule. -/
theorem actor_colormode_dispatch_witness :
    ((sphere_cpk molWithBond mixedDiscrete).1.atomColorMode = some 1
      ∧ (sphere_cpk molWithBond mixedDiscrete).2 = [])
    ∧ (ball_stick molWithBond mixedDiscrete 1 1 mixedOn).map
        (fun r => r.1.useMultiCylindersForBonds) = .ok (some 1) := by
  have h := actor_colormode_dispatch molWithBond mixedDiscrete mixedOn 1 1 1
  refine ⟨h.1 (by decide), ?_⟩
  obtain ⟨res, hres⟩ :
      ∃ r, ball_stick molWithBond mixedDiscrete 1 1 mixedOn = .ok r := ⟨_, rfl⟩
  have h2 := (h.2.2.2.1 res hres).2.2.2.1 (by decide)
  rw [hres]
  simp [Except.map, h2.1]

theorem foldl_overwrite {α : Type} (p : α → Bool) (v : Nat) :
    ∀ (l : List α) (a : Nat),
      l.foldl (fun acc r => if p r then v else acc) a
        = if l.any p then v else a := by
  intro l
  induction l with
  | nil => intro a; simp
  | cons x xs ihx =>
    intro a
    by_cases hx : p x = true <;> simp [hx, ihx]

theorem ssClassify_eq (chain_i resi : Int)
    (sheets helices : List (Int × Int × Int × Int)) :
    ssClassify chain_i resi sheets helices
      = if helices.any (ssMatch chain_i resi) then 104
        else if sheets.any (ssMatch chain_i resi) then 115 else 99 := by
  simp only [ssClassify, foldl_overwrite]

theorem secondaryStructures_getD (ch rs : List Int)
    (sheets helices : List (Int × Int × Int × Int)) (n i : Nat) (hi : i < n) :
    (secondaryStructures ch rs sheets helices n).getD i 0
      = ssClassify (ch.getD i 0) (rs.getD i 0) sheets helices := by
  unfold secondaryStructures
  rw [List.getD_eq_getElem?_getD, List.getElem?_map, List.getElem?_range hi]
  rfl

theorem ribbonPolyData_fields (table : PeriodicTable) (mol : Molecule)
    (pd : RibbonPolyData) (h : ribbonPolyData table mol = some pd) :
    pd.secondary_structures_begin = List.replicate mol.total_num_atoms 1
    ∧ pd.secondary_structures_end = List.replicate mol.total_num_atoms 1
    ∧ ∀ (rs ch : List Int) (sheets helices : List (Int × Int × Int × Int)),
        mol.residue_seq = some rs → mol.chain = some ch →
        mol.sheet = some sheets → mol.helix = some helices →
        pd.secondary_structures
          = secondaryStructures ch rs sheets helices mol.total_num_atoms := by
  rcases hrs : mol.residue_seq with _ | rs <;>
  rcases hch : mol.chain with _ | ch <;>
  rcases hsh : mol.sheet with _ | sheets <;>
  rcases hhx : mol.helix with _ | helices <;>
  rcases han : mol.atom_names with _ | an <;>
  rcases hih : mol.is_hetatm with _ | ihm <;>
  rcases hmd : mol.model with _ | mdl <;>
  simp [ribbonPolyData, hrs, hch, hsh, hhx, han, hih, hmd] at h
  subst h
  refine ⟨rfl, rfl, ?_⟩
  intro rs' ch' sheets' helices' h1 h2 h3 h4
  cases h1
  cases h2
  cases h3
  cases h4
  rfl

/-- C3: the per-atom classification `ribbon` computes is `h` exactly when
some helix record of the molecule applies to the atom (`ssMatch`: same
chain and residue between the record's fields 1 and 3), otherwise `s`
exactly when some sheet record applies, and `c` when neither does — helix
wins over sheet because the helix loop runs second and overwrites.  The
codes are the `ord` values 104 (`h`), 115 (`s`), 99 (`c`). -/
theorem ribbon_ss_classification (table : PeriodicTable) (mol : Molecule)
    (ch rs : List Int) (sheets helices : List (Int × Int × Int × Int))
    (hch : mol.chain = some ch) (hrs : mol.residue_seq = some rs)
    (hsh : mol.sheet = some sheets) (hhx : mol.helix = some helices)
    (i : Nat) (hi : i < mol.total_num_atoms) :
    (∀ pd, ribbonPolyData table mol = some pd →
      pd.secondary_structures
        = secondaryStructures ch rs sheets helices mol.total_num_atoms)
    ∧ ((secondaryStructures ch rs sheets helices mol.total_num_atoms).getD i 0
          = 104
        ↔ ∃ r ∈ helices, ssMatch (ch.getD i 0) (rs.getD i 0) r = true)
    ∧ ((secondaryStructures ch rs sheets helices mol.total_num_atoms).getD i 0
          = 115
        ↔ (¬(∃ r ∈ helices, ssMatch (ch.getD i 0) (rs.getD i 0) r = true)
            ∧ ∃ r ∈ sheets, ssMatch (ch.getD i 0) (rs.getD i 0) r = true))
    ∧ ((secondaryStructures ch rs sheets helices mol.total_num_atoms).getD i 0
          = 99
        ↔ (¬(∃ r ∈ helices, ssMatch (ch.getD i 0) (rs.getD i 0) r = true)
            ∧ ¬(∃ r ∈ sheets, ssMatch (ch.getD i 0) (rs.getD i 0) r = true))) := by
  have hgd := secondaryStructures_getD ch rs sheets helices mol.total_num_atoms i hi
  refine ⟨?_, ?_, ?_, ?_⟩
  · intro pd hpd
    exact (ribbonPolyData_fields table mol pd hpd).2.2 rs ch sheets helices
      hrs hch hsh hhx
  all_goals
    rw [hgd, ssClassify_eq]
    simp only [← List.any_eq_true]
    cases hH : helices.any (ssMatch (ch.getD i 0) (rs.getD i 0)) <;>
    cases hS : sheets.any (ssMatch (ch.getD i 0) (rs.getD i 0)) <;>
    simp [hH, hS]

/-- C3 witness: in the protein-like molecule, atom 0 (residue 1) lies in
the sheet only, atom 1 (residue 2) in the helix only. -/
theorem ribbon_ss_classification_witness :
    (secondaryStructures chainP residueP sheetsP helicesP
        molProtein.total_num_atoms).getD 1 0 = 104
    ∧ (secondaryStructures chainP residueP sheetsP helicesP
        molProtein.total_num_atoms).getD 0 0 = 115 := by
  have h1 := ribbon_ss_classification tableConst molProtein chainP residueP
    sheetsP helicesP rfl rfl rfl rfl 1 (by decide)
  have h0 := ribbon_ss_classification tableConst molProtein chainP residueP
    sheetsP helicesP rfl rfl rfl rfl 0 (by decide)
  exact ⟨h1.2.1.mpr (by decide), h0.2.2.1.mpr (by decide)⟩

/-- C10: whatever the molecule's sheet and helix data, the polydata that
`ribbon` hands to the ribbon filter carries all-ones arrays of length
equal to the atom count under `secondary_structures_begin` and
`secondary_structures_end` — every atom is marked as both a structure
begin and a structure end. -/
theorem ribbon_begin_end_all_ones (table : PeriodicTable) (mol : Molecule)
    (pd : RibbonPolyData) (h : ribbonPolyData table mol = some pd) :
    pd.secondary_structures_begin = List.replicate mol.total_num_atoms 1
    ∧ pd.secondary_structures_end = List.replicate mol.total_num_atoms 1 :=
  ⟨(ribbonPolyData_fields table mol pd h).1,
   (ribbonPolyData_fields table mol pd h).2.1⟩

/-- C10 witness: the protein-like molecule, whose sheet and helix data are
nonempty, still gets all-ones begin/end arrays. -/
theorem ribbon_begin_end_all_ones_witness :
    (ribbonPolyData tableConst molProtein).map
        RibbonPolyData.secondary_structures_begin
      = some (List.replicate molProtein.total_num_atoms 1)
    ∧ (ribbonPolyData tableConst molProtein).map
        RibbonPolyData.secondary_structures_end
      = some (List.replicate molProtein.total_num_atoms 1) := by
  obtain ⟨pd, hpd⟩ : ∃ pd, ribbonPolyData tableConst molProtein = some pd :=
    ⟨_, rfl⟩
  have h := ribbon_begin_end_all_ones tableConst molProtein pd hpd
  rw [hpd]
  simp [h.1, h.2]

end Fury
